import Mathlib

/-!
Verification of the graph-refresh decision controller of the kiali-ui
GraphPage component (`src/pages/Graph/GraphPage.tsx`): node-params
derivation from URL path fields, node change detection, the
`componentDidUpdate` refetch guard, the fetch-request construction of
`loadGraphDataFromBackend`, and the constructor/mount bootstrap sequence.
-/

namespace Kiali

/-- A namespace record (`types/Namespace`), as used by the graph page.
The source builds `{ name: namespace! }` from a raw URL path field that may
be `undefined`, so the name is optional here (`none` models `undefined`). -/
structure Namespace where
  name : Option String
deriving DecidableEq

/-- Modelled from the spec: the node-kind enumeration `NodeType` of
`types/Graph` (the file itself is not under src/; the source references
`NodeType.APP`, `NodeType.SERVICE`, `NodeType.WORKLOAD`). -/
inductive NodeType where
  | APP
  | SERVICE
  | UNKNOWN_KIND
  | WORKLOAD
deriving DecidableEq

/-- Modelled from the spec: the edge-label-mode enumeration `EdgeLabelMode`
of `types/Graph` (not under src/). Only the distinguished value
`RESPONSE_TIME_95TH_PERCENTILE`, which the source compares against, matters
for the claims; the other constructors stand for the remaining modes. -/
inductive EdgeLabelMode where
  | NONE
  | REQUESTS_PER_SECOND
  | REQUESTS_PERCENTAGE
  | RESPONSE_TIME_95TH_PERCENTILE
deriving DecidableEq

/-- Modelled from the spec: the graph-type enumeration `GraphType` of
`types/Graph` (not under src/); the refetch guard only compares values for
equality. -/
inductive GraphType where
  | APP
  | SERVICE
  | VERSIONED_APP
  | WORKLOAD
deriving DecidableEq

/-- Modelled from the spec: the `UNKNOWN` sentinel of `types/Graph`
(not under src/), the spec's "unknown" marker for a missing field value. -/
def UNKNOWN : String := "unknown"

/-- `NodeParamsType` (from `types/Graph`), as constructed by
`GraphPage.getNodeParamsFromProps`: raw string fields are carried through
with the non-null assertion `!`, so a field may still be `undefined`
(`none`). -/
structure NodeParamsType where
  app : Option String
  «namespace» : Namespace
  nodeType : NodeType
  service : Option String
  version : Option String
  workload : Option String
deriving DecidableEq

/-- `GraphURLPathProps`: the raw URL path variables
`{app, namespace, service, version, workload}`, each possibly absent. -/
structure GraphURLPathProps where
  app : Option String
  «namespace» : Option String
  service : Option String
  version : Option String
  workload : Option String
deriving DecidableEq

/-- The presence test the source applies to each raw path field, e.g.
`app && app !== UNKNOWN && app !== 'undefined'`: JS truthiness rejects
`undefined` and the empty string, and the two sentinels are rejected
explicitly. -/
def paramOk (s : Option String) : Bool :=
  match s with
  | none => false
  | some v => !(decide (v = "")) && !(decide (v = UNKNOWN)) && !(decide (v = "undefined"))

/-- `GraphPage.getNodeParamsFromProps`: derives the focused-node params from
the raw URL path fields, or `none` when no identity field is present. -/
def getNodeParamsFromProps (props : GraphURLPathProps) : Option NodeParamsType :=
  let appOk := paramOk props.app
  let namespaceOk := paramOk props.«namespace»
  let serviceOk := paramOk props.service
  let workloadOk := paramOk props.workload
  if !appOk && !namespaceOk && !serviceOk && !workloadOk then
    none
  else
    let nodeType :=
      if appOk || workloadOk then
        if appOk then NodeType.APP else NodeType.WORKLOAD
      else
        NodeType.SERVICE
    let version :=
      if appOk || workloadOk then props.version else some ""
    some
      { app := props.app
        «namespace» := { name := props.«namespace» }
        nodeType := nodeType
        service := props.service
        version := version
        workload := props.workload }

/-- A heap reference: a value together with its address. Two references are
the same JS object exactly when their addresses coincide; a well-formed heap
never stores different values at one address. -/
structure Ref (α : Type) where
  val : α
  addr : Nat
deriving DecidableEq

/-- JS strict equality `===` on two possibly-`undefined` object references:
`undefined === undefined` is true, an object only equals itself. -/
def refEq {α : Type} : Option (Ref α) → Option (Ref α) → Bool
  | none, none => true
  | some a, some b => decide (a.addr = b.addr)
  | _, _ => false

/-- `GraphPage.isNodeChanged`: reference-equality fast path, then
presence mismatch, then field-by-field comparison of
`app, service, version, workload, nodeType`. -/
def isNodeChanged (prevNode node : Option (Ref NodeParamsType)) : Bool :=
  if refEq prevNode node then
    false
  else
    match prevNode, node with
    | some _, none => true
    | none, some _ => true
    | some p, some n =>
      let nodeAppHasChanged := decide (p.val.app ≠ n.val.app)
      let nodeServiceHasChanged := decide (p.val.service ≠ n.val.service)
      let nodeVersionHasChanged := decide (p.val.version ≠ n.val.version)
      let nodeTypeHasChanged := decide (p.val.nodeType ≠ n.val.nodeType)
      let nodeWorkloadHasChanged := decide (p.val.workload ≠ n.val.workload)
      nodeAppHasChanged ||
        nodeServiceHasChanged ||
        nodeVersionHasChanged ||
        nodeWorkloadHasChanged ||
        nodeTypeHasChanged
    | none, none => false

/-- Modelled from the spec: `arrayEquals` of `utils/Common` (not under
src/), as instantiated in `componentDidUpdate` with the comparator
`(n1, n2) => n1.name === n2.name`. Per the spec, "Equality for refresh
purposes is set-equality by name, not by order or object identity". -/
def namespaceSetsEqual (a b : List Namespace) : Bool :=
  a.all (fun x => b.any (fun y => decide (y.name = x.name))) &&
    b.all (fun x => a.any (fun y => decide (y.name = x.name)))

/-- The fetch-relevant slice of `GraphPage` props: the fields read by the
refetch guard of `componentDidUpdate` and by `loadGraphDataFromBackend`.
The focused node is a store-owned object, so it is carried by reference. -/
structure GraphPageSnapshot where
  activeNamespaces : List Namespace
  duration : Int
  edgeLabelMode : EdgeLabelMode
  graphType : GraphType
  lastRefreshAt : Int
  node : Option (Ref NodeParamsType)
  replayQueryTime : Int
  showSecurity : Bool
  showServiceNodes : Bool
  showUnusedNodes : Bool
deriving DecidableEq

/-- The refetch guard of `GraphPage.componentDidUpdate`: the disjunction
controlling the call to `loadGraphDataFromBackend`. -/
def shouldRefetch (prev curr : GraphPageSnapshot) : Bool :=
  let activeNamespacesChanged :=
    !(namespaceSetsEqual prev.activeNamespaces curr.activeNamespaces)
  activeNamespacesChanged ||
    decide (prev.duration ≠ curr.duration) ||
    (decide (prev.edgeLabelMode ≠ curr.edgeLabelMode) &&
      decide (curr.edgeLabelMode = EdgeLabelMode.RESPONSE_TIME_95TH_PERCENTILE)) ||
    decide (prev.graphType ≠ curr.graphType) ||
    (decide (prev.lastRefreshAt ≠ curr.lastRefreshAt) && decide (curr.replayQueryTime = 0)) ||
    decide (prev.replayQueryTime ≠ curr.replayQueryTime) ||
    decide (prev.showServiceNodes ≠ curr.showServiceNodes) ||
    decide (prev.showSecurity ≠ curr.showSecurity) ||
    decide (prev.showUnusedNodes ≠ curr.showUnusedNodes) ||
    isNodeChanged prev.node curr.node

/-- The argument record of `GraphDataSource.fetchGraphData` as built by
`loadGraphDataFromBackend`. -/
structure FetchRequest where
  namespaces : List Namespace
  duration : Int
  graphType : GraphType
  injectServiceNodes : Bool
  edgeLabelMode : EdgeLabelMode
  showSecurity : Bool
  showUnusedNodes : Bool
  node : Option NodeParamsType
  queryTime : Option Int
deriving DecidableEq

/-- `GraphPage.loadGraphDataFromBackend`: builds the fetch request from the
current props. `!!replayQueryTime` is JS number-truthiness, so a zero replay
time becomes `undefined`; a focused node narrows the namespace scope to the
node's own namespace. -/
def loadGraphDataFromBackend (props : GraphPageSnapshot) : FetchRequest :=
  let queryTime : Option Int :=
    if props.replayQueryTime ≠ 0 then some props.replayQueryTime else none
  { namespaces :=
      match props.node with
      | some r => [r.val.«namespace»]
      | none => props.activeNamespaces
    duration := props.duration
    graphType := props.graphType
    injectServiceNodes := props.showServiceNodes
    edgeLabelMode := props.edgeLabelMode
    showSecurity := props.showSecurity
    showUnusedNodes := props.showUnusedNodes
    node := props.node.map (fun r => r.val)
    queryTime := queryTime }

/-- The store's focused node right after the `GraphPage` constructor ran:
the constructor dispatches `setNode(urlNode)` exactly when
`isNodeChanged(urlNode, props.node)`, and a redux dispatch updates the store
synchronously. -/
def constructorStoreNode (urlNode storeNode : Option (Ref NodeParamsType)) :
    Option (Ref NodeParamsType) :=
  if isNodeChanged urlNode storeNode then urlNode else storeNode

/-- The fetches issued by `componentDidMount`: the mount-time fetch runs iff
`store.getState().graph.node` is absent after the constructor, and it uses
`this.props`, which still carry the pre-dispatch node (state updates are not
posted until after the first render, per the source's own comment). -/
def bootstrapMountFetches (initialProps : GraphPageSnapshot)
    (urlNode : Option (Ref NodeParamsType)) : List FetchRequest :=
  if (constructorStoreNode urlNode initialProps.node).isNone then
    [loadGraphDataFromBackend initialProps]
  else
    []

/-- The fetches issued by the first `componentDidUpdate` pass after the
constructor's store update (if any) is delivered to the props: the full
refetch guard runs against the previous props. -/
def bootstrapUpdateFetches (initialProps : GraphPageSnapshot)
    (urlNode : Option (Ref NodeParamsType)) : List FetchRequest :=
  let updatedProps :=
    { initialProps with node := constructorStoreNode urlNode initialProps.node }
  if shouldRefetch initialProps updatedProps then
    [loadGraphDataFromBackend updatedProps]
  else
    []

/-- The fetch requests issued during bootstrap, in order: constructor
(no fetch), mount, then the first update cycle. -/
def bootstrapFetchTrace (initialProps : GraphPageSnapshot)
    (urlNode : Option (Ref NodeParamsType)) : List FetchRequest :=
  bootstrapMountFetches initialProps urlNode ++ bootstrapUpdateFetches initialProps urlNode

/-! Helper lemmas -/

/-- The spec's "present" predicate on a raw path field: non-empty, not the
"unknown" sentinel, and not the literal string `"undefined"`. -/
def paramPresent (s : Option String) : Prop :=
  ∃ v, s = some v ∧ v ≠ "" ∧ v ≠ "unknown" ∧ v ≠ "undefined"

theorem paramOk_iff (s : Option String) : paramOk s = true ↔ paramPresent s := by
  cases s with
  | none => simp [paramOk, paramPresent]
  | some v => simp [paramOk, paramPresent, UNKNOWN, and_assoc]

theorem refEq_self (x : Option (Ref NodeParamsType)) : refEq x x = true := by
  cases x <;> simp [refEq]

theorem isNodeChanged_self (x : Option (Ref NodeParamsType)) : isNodeChanged x x = false := by
  simp [isNodeChanged, refEq_self]

theorem isNodeChanged_symm (x y : Option (Ref NodeParamsType)) :
    isNodeChanged x y = isNodeChanged y x := by
  cases x <;> cases y <;>
    simp [isNodeChanged, refEq, ne_comm, eq_comm, Bool.or_comm, Bool.or_assoc, Bool.or_left_comm]

theorem namespaceSetsEqual_refl (a : List Namespace) : namespaceSetsEqual a a = true := by
  simp only [namespaceSetsEqual, Bool.and_self, List.all_eq_true, List.any_eq_true,
    decide_eq_true_eq]
  intro x hx
  exact ⟨x, hx, rfl⟩

theorem shouldRefetch_self (p : GraphPageSnapshot) : shouldRefetch p p = false := by
  simp [shouldRefetch, namespaceSetsEqual_refl, isNodeChanged_self]

theorem shouldRefetch_node_update (p : GraphPageSnapshot) (x : Option (Ref NodeParamsType)) :
    shouldRefetch p { p with node := x } = isNodeChanged p.node x := by
  simp [shouldRefetch, namespaceSetsEqual_refl]

/-! Concrete fixtures -/

/-- The node params derived from the URL of the bookinfo `reviews` workload
graph. -/
def reviewsNode : NodeParamsType :=
  { app := none
    «namespace» := { name := some "bookinfo" }
    nodeType := NodeType.WORKLOAD
    service := none
    version := none
    workload := some "reviews" }

/-- `reviewsNode` relocated to another namespace, all identity fields
unchanged. -/
def reviewsNodeOtherNs : NodeParamsType :=
  { reviewsNode with «namespace» := { name := some "other" } }

/-- A baseline snapshot: bookinfo selected, no focused node, not replaying. -/
def snap0 : GraphPageSnapshot :=
  { activeNamespaces := [{ name := some "bookinfo" }]
    duration := 60
    edgeLabelMode := EdgeLabelMode.NONE
    graphType := GraphType.VERSIONED_APP
    lastRefreshAt := 0
    node := none
    replayQueryTime := 0
    showSecurity := false
    showServiceNodes := true
    showUnusedNodes := false }

/-! Claim theorems -/

/-- The spec's ten refetch triggers, stated over a snapshot pair, written
from the spec's wording (§4.2). -/
def specRefetchTriggers (p c : GraphPageSnapshot) : Prop :=
  namespaceSetsEqual p.activeNamespaces c.activeNamespaces = false ∨
  p.duration ≠ c.duration ∨
  (p.edgeLabelMode ≠ c.edgeLabelMode ∧
    c.edgeLabelMode = EdgeLabelMode.RESPONSE_TIME_95TH_PERCENTILE) ∨
  p.graphType ≠ c.graphType ∨
  (p.lastRefreshAt ≠ c.lastRefreshAt ∧ c.replayQueryTime = 0) ∨
  p.replayQueryTime ≠ c.replayQueryTime ∨
  p.showServiceNodes ≠ c.showServiceNodes ∨
  p.showSecurity ≠ c.showSecurity ∨
  p.showUnusedNodes ≠ c.showUnusedNodes ∨
  isNodeChanged p.node c.node = true

/-- C1: `shouldRefetch` returns true iff at least one of the ten listed
triggers holds, and on a pair of identical snapshots (in particular any
snapshot against itself) no fetch is triggered. -/
theorem shouldRefetch_iff_triggers :
    (∀ p c : GraphPageSnapshot, shouldRefetch p c = true ↔ specRefetchTriggers p c) ∧
    (∀ p : GraphPageSnapshot, shouldRefetch p p = false) := by
  refine ⟨fun p c => ?_, shouldRefetch_self⟩
  simp [shouldRefetch, specRefetchTriggers, Bool.or_eq_true, Bool.and_eq_true,
    Bool.not_eq_true', decide_eq_true_eq, or_assoc]

/-- Witness for C1: a duration change triggers a refetch, and a snapshot
compared against itself does not. -/
theorem shouldRefetch_iff_triggers_witness :
    shouldRefetch snap0 { snap0 with duration := 120 } = true ∧
    shouldRefetch snap0 snap0 = false :=
  ⟨(shouldRefetch_iff_triggers.1 snap0 { snap0 with duration := 120 }).mpr
      (Or.inr (Or.inl (by decide))),
    shouldRefetch_iff_triggers.2 snap0⟩

/-- C3: for snapshots differing only in `edgeLabelMode`, a refetch is
triggered iff the new mode is `RESPONSE_TIME_95TH_PERCENTILE`. -/
theorem edgeLabelMode_change_triggers_iff (p : GraphPageSnapshot) (m : EdgeLabelMode)
    (h : m ≠ p.edgeLabelMode) :
    shouldRefetch p { p with edgeLabelMode := m } = true ↔
      m = EdgeLabelMode.RESPONSE_TIME_95TH_PERCENTILE := by
  have h2 : p.edgeLabelMode ≠ m := fun e => h e.symm
  simp [shouldRefetch, namespaceSetsEqual_refl, isNodeChanged_self, h2]

/-- Witness for C3: entering percentile mode from `NONE` triggers a
refetch. -/
theorem edgeLabelMode_change_triggers_iff_witness :
    shouldRefetch snap0
      { snap0 with edgeLabelMode := EdgeLabelMode.RESPONSE_TIME_95TH_PERCENTILE } = true :=
  (edgeLabelMode_change_triggers_iff snap0 EdgeLabelMode.RESPONSE_TIME_95TH_PERCENTILE
    (by decide)).mpr rfl

/-- C4: for snapshots differing only in `lastRefreshAt`, a refetch is
triggered iff the (unchanged) `replayQueryTime` is 0. -/
theorem lastRefreshAt_change_triggers_iff (p : GraphPageSnapshot) (t : Int)
    (h : t ≠ p.lastRefreshAt) :
    shouldRefetch p { p with lastRefreshAt := t } = true ↔ p.replayQueryTime = 0 := by
  have h2 : p.lastRefreshAt ≠ t := fun e => h e.symm
  simp [shouldRefetch, namespaceSetsEqual_refl, isNodeChanged_self, h2]

/-- Witness for C4: with `replayQueryTime = 0`, a refresh tick triggers a
refetch. -/
theorem lastRefreshAt_change_triggers_iff_witness :
    shouldRefetch snap0 { snap0 with lastRefreshAt := 1 } = true :=
  (lastRefreshAt_change_triggers_iff snap0 1 (by decide)).mpr rfl

/-- The spec's field-difference condition for two present focused nodes:
at least one of app, service, version, node kind, workload differs. -/
def nodeFieldsDiffer (a b : NodeParamsType) : Prop :=
  a.app ≠ b.app ∨ a.service ≠ b.service ∨ a.version ≠ b.version ∨
    a.nodeType ≠ b.nodeType ∨ a.workload ≠ b.workload

/-- C5: `isNodeChanged` returns false on the same reference, true when
exactly one side is absent, false when both are absent, and — on a
well-formed heap — true for two present nodes iff one of the five identity
fields differs; in particular structurally equal, reference-distinct nodes
compare as unchanged. -/
theorem isNodeChanged_spec :
    (∀ x y : Option (Ref NodeParamsType), refEq x y = true → isNodeChanged x y = false) ∧
    (∀ a : Ref NodeParamsType,
      isNodeChanged (some a) none = true ∧ isNodeChanged none (some a) = true) ∧
    isNodeChanged none none = false ∧
    (∀ a b : Ref NodeParamsType, (a.addr = b.addr → a.val = b.val) →
      (isNodeChanged (some a) (some b) = true ↔ nodeFieldsDiffer a.val b.val)) ∧
    (∀ a b : Ref NodeParamsType, a.val = b.val →
      isNodeChanged (some a) (some b) = false) := by
  refine ⟨fun x y h => by simp [isNodeChanged, h], fun a => ⟨?_, ?_⟩, ?_, ?_, ?_⟩
  · simp [isNodeChanged, refEq]
  · simp [isNodeChanged, refEq]
  · simp [isNodeChanged, refEq]
  · intro a b hwf
    by_cases haddr : a.addr = b.addr
    · have hv := hwf haddr
      simp [isNodeChanged, refEq, haddr, nodeFieldsDiffer, hv]
    · simp [isNodeChanged, refEq, haddr, nodeFieldsDiffer]
      tauto
  · intro a b hv
    simp [isNodeChanged, refEq, hv]

/-- Witness for C5: two structurally equal references at distinct addresses
compare as unchanged. -/
theorem isNodeChanged_spec_witness :
    isNodeChanged (some ⟨reviewsNode, 1⟩) (some ⟨reviewsNode, 2⟩) = false :=
  isNodeChanged_spec.2.2.2.2 ⟨reviewsNode, 1⟩ ⟨reviewsNode, 2⟩ rfl

/-- C10: `isNodeChanged` ignores the namespace field: two present nodes that
agree on the five identity fields but sit in different namespaces compare as
unchanged, so a namespace-only change of the focused node does not by itself
trigger a refetch. -/
theorem isNodeChanged_ignores_namespace (a b : Ref NodeParamsType)
    (happ : a.val.app = b.val.app) (hservice : a.val.service = b.val.service)
    (hversion : a.val.version = b.val.version) (hkind : a.val.nodeType = b.val.nodeType)
    (hworkload : a.val.workload = b.val.workload)
    (_hns : a.val.«namespace» ≠ b.val.«namespace») :
    isNodeChanged (some a) (some b) = false ∧
    ∀ p : GraphPageSnapshot, p.node = some a →
      shouldRefetch p { p with node := some b } = false := by
  have hchg : isNodeChanged (some a) (some b) = false := by
    simp [isNodeChanged, refEq, happ, hservice, hversion, hkind, hworkload]
  exact ⟨hchg, fun p hp => by rw [shouldRefetch_node_update, hp, hchg]⟩

/-- Witness for C10: moving the reviews workload node to another namespace,
with identity fields unchanged, is not a node change. -/
theorem isNodeChanged_ignores_namespace_witness :
    isNodeChanged (some ⟨reviewsNode, 1⟩) (some ⟨reviewsNodeOtherNs, 2⟩) = false :=
  (isNodeChanged_ignores_namespace ⟨reviewsNode, 1⟩ ⟨reviewsNodeOtherNs, 2⟩
    rfl rfl rfl rfl rfl (by decide)).1

theorem namespaceSetsEqual_of_perm (a b : List Namespace)
    (h : (a.map Namespace.name).Perm (b.map Namespace.name)) :
    namespaceSetsEqual a b = true := by
  simp only [namespaceSetsEqual, Bool.and_eq_true, List.all_eq_true, List.any_eq_true,
    decide_eq_true_eq]
  constructor
  · intro x hx
    have hm : x.name ∈ b.map Namespace.name := h.mem_iff.mp (List.mem_map_of_mem _ hx)
    obtain ⟨y, hy, he⟩ := List.mem_map.mp hm
    exact ⟨y, hy, he⟩
  · intro x hx
    have hm : x.name ∈ a.map Namespace.name := h.mem_iff.mpr (List.mem_map_of_mem _ hx)
    obtain ⟨y, hy, he⟩ := List.mem_map.mp hm
    exact ⟨y, hy, he⟩

/-- `snap0` with active namespaces named "a" and "b". -/
def snapAB : GraphPageSnapshot :=
  { snap0 with activeNamespaces := [{ name := some "a" }, { name := some "b" }] }

/-- C2: reordering the active namespace list without changing the set of
names (all other fetch-relevant fields equal) does not trigger a refetch. -/
theorem namespaceReorder_no_refetch (p : GraphPageSnapshot) (ns2 : List Namespace)
    (h : (p.activeNamespaces.map Namespace.name).Perm (ns2.map Namespace.name)) :
    shouldRefetch p { p with activeNamespaces := ns2 } = false := by
  simp [shouldRefetch, namespaceSetsEqual_of_perm _ _ h, isNodeChanged_self]

/-- Witness for C2: going from namespaces `["a","b"]` to `["b","a"]` does
not trigger a refetch. -/
theorem namespaceReorder_no_refetch_witness :
    shouldRefetch snapAB
      { snapAB with activeNamespaces := [{ name := some "b" }, { name := some "a" }] } =
      false :=
  namespaceReorder_no_refetch snapAB [{ name := some "b" }, { name := some "a" }]
    (by decide)

/-- C6: `getNodeParamsFromProps` treats a raw field as present iff it is
non-empty and neither sentinel; it returns `none` exactly when no identity
field is present; an input with `app` or `workload` present yields kind
`APP` (when `app` is present) or `WORKLOAD` with the version carried
through; the remaining present inputs yield kind `SERVICE` with the version
forced to the empty string. -/
theorem getNodeParamsFromProps_spec (props : GraphURLPathProps) :
    (∀ s : Option String, paramOk s = true ↔ paramPresent s) ∧
    (getNodeParamsFromProps props = none ↔
      ¬paramPresent props.app ∧ ¬paramPresent props.«namespace» ∧
        ¬paramPresent props.service ∧ ¬paramPresent props.workload) ∧
    (paramPresent props.app →
      ∃ n, getNodeParamsFromProps props = some n ∧ n.nodeType = NodeType.APP ∧
        n.version = props.version) ∧
    (¬paramPresent props.app → paramPresent props.workload →
      ∃ n, getNodeParamsFromProps props = some n ∧ n.nodeType = NodeType.WORKLOAD ∧
        n.version = props.version) ∧
    (¬paramPresent props.app → ¬paramPresent props.workload →
      (paramPresent props.«namespace» ∨ paramPresent props.service) →
      ∃ n, getNodeParamsFromProps props = some n ∧ n.nodeType = NodeType.SERVICE ∧
        n.version = some "") := by
  have key : ∀ s, paramPresent s ↔ paramOk s = true := fun s => (paramOk_iff s).symm
  refine ⟨paramOk_iff, ?_, ?_, ?_, ?_⟩ <;>
  · simp only [key, Bool.not_eq_true]
    cases ha : paramOk props.app <;> cases hnm : paramOk props.«namespace» <;>
      cases hs : paramOk props.service <;> cases hw : paramOk props.workload <;>
      simp [getNodeParamsFromProps, ha, hnm, hs, hw]

/-- Witness for C6: the reviews-workload URL input yields a `WORKLOAD` node
with the version carried through. -/
theorem getNodeParamsFromProps_spec_witness :
    ∃ n, getNodeParamsFromProps
        { app := none, «namespace» := some "bookinfo", service := none, version := none,
          workload := some "reviews" } = some n ∧
      n.nodeType = NodeType.WORKLOAD ∧ n.version = none :=
  (getNodeParamsFromProps_spec _).2.2.2.1
    (by intro h; obtain ⟨v, hv, -⟩ := h; cases hv)
    ⟨"reviews", rfl, by decide, by decide, by decide⟩

/-- The raw URL path fields of the bookinfo `reviews` workload graph. -/
def bookinfoReviewsProps : GraphURLPathProps :=
  { app := none
    «namespace» := some "bookinfo"
    service := none
    version := none
    workload := some "reviews" }

/-- A store reference holding `reviewsNode`. -/
def reviewsRef : Ref NodeParamsType := ⟨reviewsNode, 7⟩

/-- `snap0` after focusing the reviews workload node. -/
def snapReviews : GraphPageSnapshot := { snap0 with node := some reviewsRef }

/-- C7: the fetch request's namespace scope is the focused node's own
namespace when a node is focused and the full active namespace set
otherwise; in the bookinfo example, focusing the reviews workload triggers
a refetch whose scope is namespace "bookinfo" with a `WORKLOAD` node named
"reviews". -/
theorem fetchScope_spec :
    (∀ s : GraphPageSnapshot,
      (∀ r, s.node = some r →
        (loadGraphDataFromBackend s).namespaces = [r.val.«namespace»]) ∧
      (s.node = none →
        (loadGraphDataFromBackend s).namespaces = s.activeNamespaces)) ∧
    getNodeParamsFromProps bookinfoReviewsProps = some reviewsNode ∧
    shouldRefetch snap0 snapReviews = true ∧
    (loadGraphDataFromBackend snapReviews).namespaces = [{ name := some "bookinfo" }] ∧
    (loadGraphDataFromBackend snapReviews).node = some reviewsNode ∧
    reviewsNode.nodeType = NodeType.WORKLOAD ∧
    reviewsNode.workload = some "reviews" := by
  refine ⟨fun s => ⟨fun r hr => ?_, fun hn => ?_⟩, ?_, ?_, ?_, ?_, ?_, ?_⟩
  · simp [loadGraphDataFromBackend, hr]
  · simp [loadGraphDataFromBackend, hn]
  · decide
  · decide
  · decide
  · decide
  · decide
  · decide

/-- Witness for C7: the node-scoped request for the focused reviews node. -/
theorem fetchScope_spec_witness :
    (loadGraphDataFromBackend snapReviews).namespaces = [reviewsRef.val.«namespace»] :=
  (fetchScope_spec.1 snapReviews).1 reviewsRef rfl

/-- The spec's full-population invariant (§3): a derived node result, when
present, carries the identity field matching its kind. -/
def fullyPopulatedPerKind (o : Option NodeParamsType) : Prop :=
  ∀ n, o = some n →
    (n.nodeType = NodeType.APP → paramPresent n.app) ∧
    (n.nodeType = NodeType.WORKLOAD → paramPresent n.workload) ∧
    (n.nodeType = NodeType.SERVICE → paramPresent n.service)

/-- Raw URL path fields where only the namespace is present. -/
def namespaceOnlyProps : GraphURLPathProps :=
  { app := none
    «namespace» := some "bookinfo"
    service := none
    version := none
    workload := none }

/-- The node `getNodeParamsFromProps` derives from `namespaceOnlyProps`:
a `SERVICE` node with no service name. -/
def namespaceOnlyNode : NodeParamsType :=
  { app := none
    «namespace» := { name := some "bookinfo" }
    nodeType := NodeType.SERVICE
    service := none
    version := some ""
    workload := none }

/-- Counterexample for C8: a raw input with only the namespace present
yields a present `SERVICE` node whose service name is absent, so the
derived node is not fully populated per its kind. -/
theorem getNodeParams_not_fully_populated :
    getNodeParamsFromProps namespaceOnlyProps = some namespaceOnlyNode ∧
    namespaceOnlyNode.nodeType = NodeType.SERVICE ∧
    namespaceOnlyNode.service = none ∧
    ¬ fullyPopulatedPerKind (getNodeParamsFromProps namespaceOnlyProps) := by
  refine ⟨by decide, rfl, rfl, fun h => ?_⟩
  obtain ⟨v, hv, -⟩ := (h namespaceOnlyNode (by decide)).2.2 rfl
  cases hv

/-- C8 (amended): a node derived by `getNodeParamsFromProps` carries
`appName` when its kind is `APP` and `workloadName` when its kind is
`WORKLOAD`; a `SERVICE` result carries `serviceName` whenever the raw
service field is present (but a namespace-only input yields a `SERVICE`
result with no service name). -/
theorem getNodeParams_populated_per_kind (props : GraphURLPathProps) (n : NodeParamsType)
    (h : getNodeParamsFromProps props = some n) :
    (n.nodeType = NodeType.APP → paramPresent n.app) ∧
    (n.nodeType = NodeType.WORKLOAD → paramPresent n.workload) ∧
    (n.nodeType = NodeType.SERVICE → paramPresent props.service → paramPresent n.service) := by
  have key : ∀ s, paramPresent s ↔ paramOk s = true := fun s => (paramOk_iff s).symm
  simp only [key]
  cases ha : paramOk props.app <;> cases hnm : paramOk props.«namespace» <;>
    cases hs : paramOk props.service <;> cases hw : paramOk props.workload <;>
    simp [getNodeParamsFromProps, ha, hnm, hs, hw] at h <;>
    subst h <;>
    simp [ha, hs, hw]

/-- Witness for C8 (amended): the reviews workload derivation carries its
workload name. -/
theorem getNodeParams_populated_per_kind_witness :
    paramOk reviewsNode.workload = true ∧ reviewsNode.nodeType = NodeType.WORKLOAD := by
  have hpop :=
    (getNodeParams_populated_per_kind bookinfoReviewsProps reviewsNode (by decide)).2.1 rfl
  exact ⟨(paramOk_iff reviewsNode.workload).mpr hpop, rfl⟩

/-- A store reference holding a stale focused node at construction time. -/
def staleRef : Ref NodeParamsType := ⟨reviewsNode, 3⟩

/-- A snapshot whose store still holds a focused node while the URL carries
none. -/
def staleSnap : GraphPageSnapshot := { snap0 with node := some staleRef }

/-- Counterexample for C9: with a node stored and a node-less URL, the
URL-derived node differs from the stored one (`isNodeChanged` is true), yet
the mount-time fetch is not deferred: it runs against the stale props node,
and only the following update pass issues the corrective fetch — a fetch
for the stale node precedes the corrective one. -/
theorem bootstrap_stale_fetch_counterexample :
    isNodeChanged none staleSnap.node = true ∧
    constructorStoreNode none staleSnap.node = none ∧
    bootstrapFetchTrace staleSnap none =
      [loadGraphDataFromBackend staleSnap,
        loadGraphDataFromBackend { staleSnap with node := none }] ∧
    (loadGraphDataFromBackend staleSnap).node = some reviewsNode ∧
    (loadGraphDataFromBackend { staleSnap with node := none }).node = none := by
  refine ⟨by decide, by decide, by decide, by decide, by decide⟩

/-- C9 (amended): the mount-time fetch happens iff the store holds no
focused node after the constructor ran; when the URL-derived node is
present and differs from the stored one, the stored node is updated first,
the mount fetch is skipped, and the only bootstrap fetch is the deferred
one for the updated node; but when the URL-derived node is absent and a
node was stored, the mount fetch proceeds with the stale props node and the
corrective fetch follows it. -/
theorem bootstrap_fetch_spec (base : GraphPageSnapshot)
    (urlNode : Option (Ref NodeParamsType)) :
    (bootstrapMountFetches base urlNode ≠ [] ↔
      constructorStoreNode urlNode base.node = none) ∧
    (∀ r, urlNode = some r → isNodeChanged urlNode base.node = true →
      bootstrapMountFetches base urlNode = [] ∧
      bootstrapFetchTrace base urlNode =
        [loadGraphDataFromBackend { base with node := urlNode }]) ∧
    (∀ r, base.node = some r → urlNode = none →
      bootstrapFetchTrace base urlNode =
        [loadGraphDataFromBackend base,
          loadGraphDataFromBackend { base with node := none }]) := by
  refine ⟨?_, ?_, ?_⟩
  · cases hc : constructorStoreNode urlNode base.node <;>
      simp [bootstrapMountFetches, hc]
  · intro r hr hchg
    subst hr
    have hstore : constructorStoreNode (some r) base.node = some r := by
      simp [constructorStoreNode, hchg]
    have hmount : bootstrapMountFetches base (some r) = [] := by
      simp [bootstrapMountFetches, hstore]
    have hback : isNodeChanged base.node (some r) = true := by
      rw [isNodeChanged_symm]; exact hchg
    have hupd : bootstrapUpdateFetches base (some r) =
        [loadGraphDataFromBackend { base with node := some r }] := by
      simp [bootstrapUpdateFetches, hstore, shouldRefetch_node_update, hback]
    simp [bootstrapFetchTrace, hmount, hupd]
  · intro r hb hu
    subst hu
    have hchg : isNodeChanged none base.node = true := by
      simp [isNodeChanged, refEq, hb]
    have hstore : constructorStoreNode none base.node = none := by
      simp [constructorStoreNode, hchg]
    have hback : isNodeChanged base.node none = true := by
      rw [isNodeChanged_symm]; exact hchg
    have hmount : bootstrapMountFetches base none = [loadGraphDataFromBackend base] := by
      simp [bootstrapMountFetches, hstore]
    have hupd : bootstrapUpdateFetches base none =
        [loadGraphDataFromBackend { base with node := none }] := by
      simp [bootstrapUpdateFetches, hstore, shouldRefetch_node_update, hback]
    simp [bootstrapFetchTrace, hmount, hupd]

/-- Witness for C9 (amended): booting with no stored node and a
reviews-workload URL defers everything to the single update-pass fetch for
the URL node. -/
theorem bootstrap_fetch_spec_witness :
    bootstrapFetchTrace snap0 (some reviewsRef) =
      [loadGraphDataFromBackend { snap0 with node := some reviewsRef }] :=
  ((bootstrap_fetch_spec snap0 (some reviewsRef)).2.1 reviewsRef rfl (by decide)).2

end Kiali
